import Mathlib

/-!
Verification of the mock-interview practice tool (prompt_strategies.py,
llm_utils.py, practice_app.py, streamlit_app.py, ui_components.py) against
its natural-language specification.

The embedding models Python strings as Lean `String` values, with character
level helpers mirroring the Python `str` methods used by the code
(`lower`, `strip`, `startswith`, `endswith`, slicing, `len`).  Python
dictionaries appear as association lists (`List (key, value)` with
`List.lookup`) or, where reference aliasing matters, as an explicit heap of
addresses.  `None`-able Python values are `Option`s, and functions that can
raise return `Except`.  The escape `\x27` denotes the ASCII apostrophe that
appears inside several source strings.
-/

/-- Python `s.lower()` restricted to the character level, as used on ASCII
round names, difficulty names and role names. -/
def py_lower (s : String) : String := ⟨s.data.map Char.toLower⟩

/-- Python `s.strip()`: remove leading and trailing whitespace. -/
def py_strip (s : String) : String :=
  ⟨((s.data.dropWhile Char.isWhitespace).reverse.dropWhile Char.isWhitespace).reverse⟩

/-- Helper for `py_startswith`: does the first list start with the second? -/
def chars_startwith : List Char → List Char → Bool
  | _, [] => true
  | [], _ :: _ => false
  | a :: as, b :: bs => a == b && chars_startwith as bs

/-- Python `s.startswith(pre)`. -/
def py_startswith (s pre : String) : Bool := chars_startwith s.data pre.data

/-- Python `s.endswith(suf)`. -/
def py_endswith (s suf : String) : Bool := chars_startwith s.data.reverse suf.data.reverse

/-- Python `s[n:]` (drop the first `n` characters). -/
def py_drop (s : String) (n : Nat) : String := ⟨s.data.drop n⟩

/-- Python `len(s)` (number of characters). -/
def py_len (s : String) : Nat := s.data.length

/-- prompt_strategies.py: `"\n".join(f"- {q}" for q in (previous_questions or [])) or "None"`,
the rendering of the prior-question list shared by all six strategies. -/
def prior_list (previous_questions : Option (List String)) : String :=
  let joined := "\n".intercalate ((previous_questions.getD []).map (fun q => "- " ++ q))
  if joined = "" then "None" else joined

/-- prompt_strategies.py: the interpolation `{company or \x27a company\x27}`:
an empty (falsy) company string is replaced by the default text. -/
def company_or_default (company : String) : String :=
  if company = "" then "a company" else company

/-- prompt_strategies.py lines 4-25: `zero_shot_prompt`. -/
def zero_shot_prompt (role company round_type difficulty : String)
    (previous_questions : Option (List String)) : String :=
  "Generate a single interview question for the following position:\n\nRole: "
  ++ role
  ++ "\nCompany: " ++ company_or_default company
  ++ "\nInterview Round: " ++ round_type
  ++ "\nDifficulty Level: " ++ difficulty
  ++ "\n\nPreviously asked questions (avoid repetition):\n" ++ prior_list previous_questions
  ++ "\n\nGenerate exactly ONE challenging and relevant interview question.\n\nQuestion:"

/-- prompt_strategies.py lines 38-50: the examples block used by `few_shot_prompt`
when the lowercased round type is "coding". -/
def few_shot_coding_examples : String :=
  "\nExample 1:\nRole: Software Engineer\nQuestion: \"Implement a function to find the longest palindromic substring in a given string. What\x27s the time complexity of your solution?\"\n\nExample 2:\nRole: Backend Developer\nQuestion: \"Design a rate limiter for an API that handles 10,000 requests per second. Explain your approach and trade-offs.\"\n\nExample 3:\nRole: Full Stack Developer\nQuestion: \"How would you optimize a slow database query that joins three tables with millions of rows each?\"\n"

/-- prompt_strategies.py lines 52-64: the examples block used by `few_shot_prompt`
when the lowercased round type is "behavioral". -/
def few_shot_behavioral_examples : String :=
  "\nExample 1:\nRole: Product Manager\nQuestion: \"Tell me about a time when you had to make a difficult decision with incomplete information. How did you approach it?\"\n\nExample 2:\nRole: Team Lead\nQuestion: \"Describe a situation where you had to give constructive feedback to a team member who wasn\x27t meeting expectations.\"\n\nExample 3:\nRole: Software Engineer\nQuestion: \"Can you share an example of when you disagreed with your manager\x27s technical decision? How did you handle it?\"\n"

/-- prompt_strategies.py lines 66-78: the examples block used by `few_shot_prompt`
for every other round type. -/
def few_shot_default_examples : String :=
  "\nExample 1:\nRole: Data Scientist\nQuestion: \"Explain the bias-variance tradeoff and how it impacts model selection in machine learning.\"\n\nExample 2:\nRole: DevOps Engineer\nQuestion: \"How would you design a CI/CD pipeline for a microservices architecture with 20+ services?\"\n\nExample 3:\nRole: Security Engineer\nQuestion: \"What are the key differences between symmetric and asymmetric encryption, and when would you use each?\"\n"

/-- prompt_strategies.py lines 37-78: selection of the examples block by round type. -/
def few_shot_examples (round_type : String) : String :=
  if py_lower round_type = "coding" then few_shot_coding_examples
  else if py_lower round_type = "behavioral" then few_shot_behavioral_examples
  else few_shot_default_examples

/-- prompt_strategies.py lines 28-94: `few_shot_prompt`. -/
def few_shot_prompt (role company round_type difficulty : String)
    (previous_questions : Option (List String)) : String :=
  "Here are examples of high-quality interview questions:\n"
  ++ few_shot_examples round_type
  ++ "\n\nNow generate a similar question for:\nRole: " ++ role
  ++ "\nCompany: " ++ company_or_default company
  ++ "\nInterview Round: " ++ round_type
  ++ "\nDifficulty Level: " ++ difficulty
  ++ "\n\nPreviously asked questions (avoid these):\n" ++ prior_list previous_questions
  ++ "\n\nGenerate exactly ONE interview question following the style and quality of the examples above.\n\nQuestion:"

/-- prompt_strategies.py lines 97-132: `chain_of_thought_prompt`. -/
def chain_of_thought_prompt (role company round_type difficulty : String)
    (previous_questions : Option (List String)) : String :=
  "You need to generate an interview question. Let\x27s think through this step by step:\n\nStep 1: Analyze the role and requirements\n- Role: "
  ++ role
  ++ "\n- Company: " ++ company_or_default company
  ++ "\n- Interview Round: " ++ round_type
  ++ "\n- Difficulty Level: " ++ difficulty
  ++ "\n\nStep 2: Consider what skills are most important for this role\nThink about: What are the key competencies needed for a "
  ++ role
  ++ "?\n\nStep 3: Determine the appropriate question type\nFor "
  ++ round_type
  ++ " round at "
  ++ difficulty
  ++ " level, what type of question would best assess the candidate?\n\nStep 4: Review previously asked questions to avoid repetition\n"
  ++ prior_list previous_questions
  ++ "\n\nStep 5: Craft a question that:\n- Tests relevant skills for the role\n- Matches the difficulty level\n- Is appropriate for the "
  ++ round_type
  ++ " round\n- Doesn\x27t repeat previous questions\n- Encourages detailed, thoughtful responses\n\nNow, based on this reasoning, generate exactly ONE interview question:\n\nQuestion:"

/-- prompt_strategies.py lines 135-165: `role_based_prompt`. -/
def role_based_prompt (role company round_type difficulty : String)
    (previous_questions : Option (List String)) : String :=
  "You are a senior technical recruiter with 15+ years of experience at top tech companies like Google, Meta, and Amazon. You\x27ve conducted over 5,000 interviews and have deep expertise in assessing candidates for technical roles.\n\nYour task is to create an interview question that will effectively evaluate a candidate applying for:\n\nPosition: "
  ++ role
  ++ "\nCompany: " ++ company_or_default company
  ++ "\nInterview Stage: " ++ round_type
  ++ "\nCandidate Level: " ++ difficulty
  ++ "\n\nAs an expert interviewer, you know that great questions should:\n- Reveal the candidate\x27s depth of knowledge\n- Allow for follow-up discussions\n- Differentiate between good and exceptional candidates\n- Be fair and unbiased\n- Relate to real-world scenarios\n\nQuestions already asked in this interview (avoid similar topics):\n"
  ++ prior_list previous_questions
  ++ "\n\nDrawing on your extensive experience, craft exactly ONE interview question that will help identify the best candidate for this role.\n\nQuestion:"

/-- prompt_strategies.py lines 168-204: `structured_output_prompt`. -/
def structured_output_prompt (role company round_type difficulty : String)
    (previous_questions : Option (List String)) : String :=
  "Generate an interview question with the following specifications:\n\nTARGET ROLE: "
  ++ role
  ++ "\nCOMPANY: " ++ company_or_default company
  ++ "\nINTERVIEW ROUND: " ++ round_type
  ++ "\nDIFFICULTY: " ++ difficulty
  ++ "\n\nREQUIREMENTS:\n1. The question must be relevant to the "
  ++ role
  ++ " position\n2. It should match the "
  ++ difficulty
  ++ " difficulty level\n3. It must be appropriate for the "
  ++ round_type
  ++ " interview round\n4. It should encourage detailed responses (not yes/no questions)\n5. It must be different from these previously asked questions:\n"
  ++ prior_list previous_questions
  ++ "\n\nQUALITY CRITERIA:\n- Clarity: The question should be unambiguous\n- Relevance: Directly related to job responsibilities\n- Depth: Should assess understanding, not just memorization\n- Practicality: Related to real-world scenarios when possible\n\nOUTPUT FORMAT:\nProvide only the interview question, nothing else. The question should be:\n- One clear, focused question (may include follow-up parts)\n- Properly punctuated\n- Professional in tone\n\nQuestion:"

/-- prompt_strategies.py lines 207-249: `socratic_prompt`. -/
def socratic_prompt (role company round_type difficulty : String)
    (previous_questions : Option (List String)) : String :=
  "Let\x27s create an excellent interview question by answering these guiding questions:\n\nQ1: What is the role we\x27re interviewing for?\nA1: "
  ++ role
  ++ "\n\nQ2: What are the core competencies required for a "
  ++ role
  ++ "?\nA2: [Consider technical skills, soft skills, and domain knowledge]\n\nQ3: What interview round is this?\nA3: "
  ++ round_type
  ++ "\n\nQ4: What specific skills should the "
  ++ round_type
  ++ " round assess?\nA4: [Think about what this round uniquely evaluates]\n\nQ5: What difficulty level are we targeting?\nA5: "
  ++ difficulty
  ++ "\n\nQ6: How should questions differ between difficulty levels?\nA6: [Consider complexity, depth, and expected experience]\n\nQ7: What questions have already been asked?\nA7: "
  ++ prior_list previous_questions
  ++ "\n\nQ8: What topics or skills haven\x27t been covered yet?\nA8: [Identify gaps in the interview coverage]\n\nQ9: What real-world challenges does a "
  ++ role
  ++ " at "
  ++ company_or_default company
  ++ " face?\nA9: [Think about practical, job-relevant scenarios]\n\nQ10: Based on all these considerations, what single question would best assess the candidate?\n\nGenerate exactly ONE interview question:\n\nQuestion:"

/-- prompt_strategies.py lines 253-284: one entry of the `PROMPT_STRATEGIES`
registry (display name, description, template function). -/
structure StrategyEntry where
  name : String
  description : String
  function : String → String → String → String → Option (List String) → String

/-- prompt_strategies.py lines 253-284: the `PROMPT_STRATEGIES` registry, as an
association list in insertion order. -/
def PROMPT_STRATEGIES : List (String × StrategyEntry) :=
  [ ("zero_shot",
     { name := "Zero-Shot Prompting",
       description := "Direct instruction without examples - simple and straightforward",
       function := zero_shot_prompt }),
    ("few_shot",
     { name := "Few-Shot Learning",
       description := "Provides examples to guide the model\x27s output style and quality",
       function := few_shot_prompt }),
    ("chain_of_thought",
     { name := "Chain-of-Thought (CoT)",
       description := "Encourages step-by-step reasoning for more thoughtful questions",
       function := chain_of_thought_prompt }),
    ("role_based",
     { name := "Role-Based Prompting",
       description := "Assigns expert persona (senior recruiter) for specialized perspective",
       function := role_based_prompt }),
    ("structured_output",
     { name := "Structured Output",
       description := "Requests specific format and quality criteria for consistency",
       function := structured_output_prompt }),
    ("socratic",
     { name := "Socratic Method",
       description := "Uses guiding questions to lead the model to better outputs",
       function := socratic_prompt }) ]

/-- The registered strategy ids, in registry order (the `PROMPT_STRATEGIES.keys()`
iteration order used when building the error message). -/
def strategyKeys : List String := PROMPT_STRATEGIES.map Prod.fst

/-- prompt_strategies.py lines 296-299: the text of the ValueError raised for an
unrecognized strategy id. -/
def unknown_strategy_message (strategy : String) : String :=
  "Unknown strategy \x27" ++ strategy ++ "\x27. Available strategies: "
  ++ ", ".intercalate strategyKeys

/-- prompt_strategies.py lines 287-302: `get_prompt_by_strategy`.  A raised
ValueError is modelled as `Except.error` carrying the message text. -/
def get_prompt_by_strategy (strategy role company round_type difficulty : String)
    (previous_questions : Option (List String)) : Except String String :=
  match PROMPT_STRATEGIES.lookup strategy with
  | none => Except.error (unknown_strategy_message strategy)
  | some entry => Except.ok (entry.function role company round_type difficulty previous_questions)

/-- llm_utils.py / google.generativeai: the four harm categories used by the
default safety settings. -/
inductive HarmCategory where
  | harassment
  | hateSpeech
  | sexuallyExplicit
  | dangerousContent
deriving DecidableEq

/-- llm_utils.py / google.generativeai: the block-threshold levels offered by
the setup page. -/
inductive HarmBlockThreshold where
  | blockNone
  | blockOnlyHigh
  | blockMediumAndAbove
  | blockLowAndAbove
deriving DecidableEq

/-- llm_utils.py lines 19-24: `DEFAULT_SAFETY_SETTINGS`, the contents of the
module-level default safety dictionary (every category blocks medium and
above). -/
def DEFAULT_SAFETY_SETTINGS : HarmCategory → HarmBlockThreshold :=
  fun _ => HarmBlockThreshold.blockMediumAndAbove

/-- A Gemini candidate content object; the text of the candidate lives in its
parts. -/
structure Content where
  parts : List String
deriving DecidableEq

/-- A Gemini response candidate: `getattr(candidate, "content", None)`. -/
structure Candidate where
  content : Option Content
deriving DecidableEq

/-- Behaviour of the consolidated accessor `response.text`: it either raises a
ValueError (no valid part) or yields `None` or a string. -/
inductive TextAttr where
  | raisesValueError
  | val : Option String → TextAttr
deriving DecidableEq

/-- A Gemini response object as observed by `_extract_text_from_response`:
its `text` property and its `candidates` attribute. -/
structure GeminiResponse where
  text : TextAttr
  candidates : Option (List Candidate)
deriving DecidableEq

/-- llm_utils.py lines 39-42: `_extract_text_from_candidate`.  The body is
`content = getattr(candidate, "content", None); if not content: return ""` and
then the function ends, so a candidate with content falls off the end of the
function and yields Python `None` (modelled as `none`); the candidate parts
are never read. -/
def extract_text_from_candidate (candidate : Candidate) : Option String :=
  match candidate.content with
  | none => some ""
  | some _ => none

/-- llm_utils.py lines 58-62: the loop over `response.candidates`; a truthy
(non-`None`, non-empty) candidate text is returned, otherwise scanning
continues. -/
def scan_candidates : List Candidate → String
  | [] => ""
  | candidate :: rest =>
    match extract_text_from_candidate candidate with
    | some t => if t = "" then scan_candidates rest else t
    | none => scan_candidates rest

/-- llm_utils.py lines 45-63: `_extract_text_from_response`.  The quick path
returns the stripped `response.text` when the accessor neither raises nor
yields falsy text; otherwise the candidate list is scanned. -/
def extract_text_from_response (response : Option GeminiResponse) : String :=
  match response with
  | none => ""
  | some r =>
    let quick : Option String :=
      match r.text with
      | TextAttr.raisesValueError => none
      | TextAttr.val none => none
      | TextAttr.val (some qt) =>
        if qt = "" then none
        else if py_strip qt = "" then none
        else some (py_strip qt)
    match quick with
    | some v => v
    | none => scan_candidates (r.candidates.getD [])

/-- llm_utils.py lines 146-154: `prefixes_to_remove`, in source order. -/
def prefixes_to_remove : List String :=
  [ "**Question:**",
    "**Question**:",
    "Question:",
    "**Q:**",
    "Q:",
    "Interview Question:",
    "**Interview Question:**" ]

/-- llm_utils.py lines 156-159: the loop that strips the first matching label
prefix (and only that one, because of the `break`), then strips whitespace. -/
def strip_leading_label (question : String) : String :=
  match prefixes_to_remove.find? (fun p => py_startswith question p) with
  | some p => py_strip (py_drop question (py_len p))
  | none => question

/-- llm_utils.py lines 141-163: the post-processing applied to a non-empty
extracted question: strip, remove one leading label prefix, and append a
question mark when the text does not already end with one. -/
def clean_question (raw : String) : String :=
  let question := py_strip raw
  let question := strip_leading_label question
  if py_endswith question "?" then question else question ++ "?"

/-- Outcome of the api-key guard at the top of `generate_question`. -/
inductive KeyCheckResult where
  | missing_key_error
  | proceed_to_remote
deriving DecidableEq

/-- Python truthiness of an optional string: `None` and `""` are falsy. -/
def py_truthy_opt (s : Option String) : Bool :=
  match s with
  | none => false
  | some v => v != ""

/-- llm_utils.py lines 105-106: `if not api_key: raise ValueError(...)`; any
truthy key proceeds to the remote Gemini call. -/
def generate_question_key_check (api_key : Option String) : KeyCheckResult :=
  if py_truthy_opt api_key then KeyCheckResult.proceed_to_remote
  else KeyCheckResult.missing_key_error

/-- llm_utils.py lines 66-72: the guard of `validate_google_api_key`:
`if not api_key or not api_key.strip(): raise ValueError(...)`. -/
def validate_rejects_key (api_key : String) : Bool :=
  api_key == "" || py_strip api_key == ""

/-- streamlit_app.py lines 262-293 viewed as a heap: Python dictionaries are
heap cells addressed by `Nat`; the module-level `DEFAULT_SAFETY_SETTINGS`
dictionary lives at `defaultAddr`, and each browser session holds (at most) a
reference to the dictionary bound to its `safety_settings` session key. -/
structure SafetyHeap where
  store : Nat → (HarmCategory → HarmBlockThreshold)
  defaultAddr : Nat
  sessionAddr : Nat → Option Nat
  nextAddr : Nat

/-- The process state before any session ran the setup page: the only safety
dictionary is the module-level default. -/
def initial_safety_heap : SafetyHeap :=
  { store := fun _ => DEFAULT_SAFETY_SETTINGS,
    defaultAddr := 0,
    sessionAddr := fun _ => none,
    nextAddr := 1 }

/-- streamlit_app.py lines 262-263:
`if "safety_settings" not in st.session_state: st.session_state.safety_settings = DEFAULT_SAFETY_SETTINGS`.
The assignment stores a reference to the module-level dictionary (no copy). -/
def setup_init_safety (h : SafetyHeap) (sid : Nat) : SafetyHeap :=
  match h.sessionAddr sid with
  | some _ => h
  | none =>
    { h with sessionAddr := fun s => if s = sid then some h.defaultAddr else h.sessionAddr s }

/-- streamlit_app.py line 293:
`st.session_state.safety_settings[category] = safety_thresholds[threshold]` —
an in-place update of whatever dictionary the session references. -/
def setup_set_threshold (h : SafetyHeap) (sid : Nat) (cat : HarmCategory)
    (thr : HarmBlockThreshold) : SafetyHeap :=
  match h.sessionAddr sid with
  | none => h
  | some a =>
    { h with store := fun addr =>
        if addr = a then (fun c => if c = cat then thr else h.store a c)
        else h.store addr }

/-- practice_app.py line 40 for contrast:
`st.session_state["safety_settings"] = DEFAULT_SAFETY_SETTINGS.copy()` — the
practice page allocates a fresh dictionary with the default contents. -/
def practice_init_safety (h : SafetyHeap) (sid : Nat) : SafetyHeap :=
  match h.sessionAddr sid with
  | some _ => h
  | none =>
    { h with
      store := fun a => if a = h.nextAddr then h.store h.defaultAddr else h.store a,
      sessionAddr := fun s => if s = sid then some h.nextAddr else h.sessionAddr s,
      nextAddr := h.nextAddr + 1 }

/-- The threshold a session would send for a category: the value stored in the
dictionary its `safety_settings` key references. -/
def session_threshold (h : SafetyHeap) (sid : Nat) (cat : HarmCategory) :
    Option HarmBlockThreshold :=
  (h.sessionAddr sid).map (fun a => h.store a cat)

/-- The two-session scenario: both sessions run the setup-page initialization,
then session 0 picks "Block None" for the harassment category. -/
def c2_heap_after_init : SafetyHeap :=
  setup_init_safety (setup_init_safety initial_safety_heap 0) 1

/-- The heap after session 0 mutates its per-category safety settings. -/
def c2_heap_after_edit : SafetyHeap :=
  setup_set_threshold c2_heap_after_init 0 HarmCategory.harassment HarmBlockThreshold.blockNone

/-- practice_app.py lines 178-189: `per_question_seconds`.  A coding round gets
the dedicated 15-minute timer; every other round uses the legacy map from the
lowercased difficulty (Beginner 3 minutes, Professional 5 minutes, default 5
minutes). -/
def per_question_seconds (round_type difficulty : String) : Nat :=
  if py_lower round_type = "coding" then 15 * 60
  else ((([("beginner", 3 * 60), ("professional", 5 * 60)] : List (String × Nat)).lookup
      (py_lower difficulty)).getD (5 * 60))

/-- practice_app.py lines 300-302: `elapsed = max(0, int(now - start))` then
`elapsed = min(elapsed, per_question_seconds)`.  The raw value is the
truncated difference of the two clock readings, in seconds. -/
def elapsed_clamped (per : Nat) (raw : Int) : Nat :=
  min (max 0 raw).toNat per

/-- practice_app.py line 303: `remaining = per_question_seconds - elapsed`. -/
def remaining_seconds (per : Nat) (raw : Int) : Nat :=
  per - elapsed_clamped per raw

/-- practice_app.py lines 362-363: `if remaining == 0:
st.session_state.question_locked[current_index] = True`. -/
def question_locked_now (per : Nat) (raw : Int) : Bool :=
  remaining_seconds per raw == 0

/-- A value held in the Streamlit session store (only the shapes the practice
page actually stores). -/
inductive SessionValue where
  | vStr : String → SessionValue
  | vNat : Nat → SessionValue
  | vBool : Bool → SessionValue
  | vStrList : List String → SessionValue
  | vNatMap : List (Nat × Nat) → SessionValue
  | vBoolMap : List (Nat × Bool) → SessionValue
  | vAnswers : List (Nat × String) → SessionValue
deriving DecidableEq

/-- ui_components.py line 44 and practice_app.py line 390: the session key the
answer text area for question `i` is bound to: `f"answer_input_{i}"`. -/
def widget_key (question_index : Nat) : String :=
  "answer_input_" ++ toString question_index

/-- practice_app.py lines 268-280: the `all_keys` list popped by the
"Start New Interview" button: the eight fixed per-interview keys plus
`answer_0` .. `answer_9`. -/
def start_new_interview_keys : List String :=
  [ "paused", "finished", "questions", "current_question_index",
    "question_timers", "question_locked", "audio_mode_enabled", "audio_checkbox" ]
  ++ (List.range 10).map (fun i => "answer_" ++ toString i)

/-- practice_app.py lines 281-282: `for key in all_keys:
st.session_state.pop(key, None)` applied to a session store. -/
def start_new_interview (s : String → Option SessionValue) : String → Option SessionValue :=
  fun k => if k ∈ start_new_interview_keys then none else s k

/-- A concrete finished-interview session store: one generated question, a
draft answer typed into the question-0 text area (held both under the widget
binding `answer_input_0` and in the `answers` map), plus the timer, lock and
audio keys. -/
def c3_example_store : String → Option SessionValue := fun k =>
  if k = "finished" then some (SessionValue.vBool true)
  else if k = "questions" then some (SessionValue.vStrList ["What is X?"])
  else if k = "current_question_index" then some (SessionValue.vNat 0)
  else if k = "question_timers" then some (SessionValue.vNatMap [(0, 1000)])
  else if k = "question_locked" then some (SessionValue.vBoolMap [(0, false)])
  else if k = "audio_mode_enabled" then some (SessionValue.vBool false)
  else if k = "audio_checkbox" then some (SessionValue.vBool false)
  else if k = "answers" then some (SessionValue.vAnswers [(0, "my draft answer")])
  else if k = "answer_input_0" then some (SessionValue.vStr "my draft answer")
  else none

/-- practice_app.py line 233: the completion acknowledgment. -/
def completion_msg : String := "✅ You completed all the interview questions!"

/-- practice_app.py line 235: the short-answer nudge. -/
def detail_nudge : String := "🔧 Consider providing more detailed answers with specific examples."

/-- practice_app.py lines 237-241: the software-engineer tip set. -/
def software_engineer_tips : List String :=
  [ "💻 Great job on the technical questions!",
    "💡 Consider discussing your problem-solving process in more detail.",
    "📚 Keep practicing coding challenges to improve your speed and accuracy." ]

/-- practice_app.py lines 242-246: the data-scientist tip set. -/
def data_scientist_tips : List String :=
  [ "📊 Good work on the data analysis questions!",
    "🧠 Consider discussing more about your approach to data cleaning and feature engineering.",
    "📈 Practice explaining complex statistical concepts in simple terms." ]

/-- practice_app.py lines 247-251: the product-manager tip set. -/
def product_manager_tips : List String :=
  [ "🎯 Good job on the product thinking questions!",
    "🤝 Consider discussing more about stakeholder management.",
    "📝 Practice creating clear and concise product requirements." ]

/-- practice_app.py lines 256-259: the generic tips used for every other role. -/
def generic_tips : List String :=
  [ "😎 You\x27re doing great!",
    "📚 Keep practicing to improve your interview skills." ]

/-- practice_app.py lines 236-252: the `role_specific` dictionary (keys are the
exact lowercased role texts). -/
def role_specific : List (String × List String) :=
  [ ("software engineer", software_engineer_tips),
    ("data scientist", data_scientist_tips),
    ("product manager", product_manager_tips) ]

/-- practice_app.py lines 231-234: `avg_response_length < 100`, where the
average is `sum(response_lengths) / len(response_lengths)` and `0` for an
empty list.  For natural-number lengths the float comparison
`sum / len < 100` is exactly `sum < 100 * len`. -/
def avg_below_100 (response_lengths : List Nat) : Bool :=
  if response_lengths.length = 0 then true
  else decide (response_lengths.sum < 100 * response_lengths.length)

/-- practice_app.py lines 233-235: the feedback list before the role-specific
tips are appended. -/
def base_feedback (response_lengths : List Nat) : List String :=
  [completion_msg] ++ (if avg_below_100 response_lengths then [detail_nudge] else [])

/-- practice_app.py lines 229-261: the full overall-feedback list of the
finished state.  `role_param` is the raw `role` query parameter; the code
lowercases it before the `role_specific.get(role, ...)` lookup. -/
def overall_feedback (role_param : String) (response_lengths : List Nat) : List String :=
  base_feedback response_lengths
  ++ ((role_specific.lookup (py_lower role_param)).getD generic_tips)

/-- practice_app.py line 105: `is_coding_round = round_type.lower() == "coding"`. -/
def is_coding_round (round_type : String) : Bool :=
  py_lower round_type == "coding"

/-- The three audio flags computed on every render of the answering state. -/
structure AudioFlags where
  audio_mode : Bool
  audio_enabled : Bool
  audio_only_mode : Bool
deriving DecidableEq

/-- practice_app.py lines 392-406: resolution of the audio flags from the
stored session preferences; a coding round forces all three flags off,
otherwise they follow `audio_mode_enabled` (falling back to
`audio_checkbox`). -/
def resolve_audio_flags (isCoding : Bool) (audio_mode_enabled audio_checkbox : Option Bool) :
    AudioFlags :=
  let audio_mode := audio_mode_enabled.getD (audio_checkbox.getD false)
  if isCoding then { audio_mode := false, audio_enabled := false, audio_only_mode := false }
  else
    let audio_enabled := audio_mode_enabled.getD (audio_checkbox.getD true)
    { audio_mode := audio_mode, audio_enabled := audio_enabled, audio_only_mode := audio_enabled }

/-- practice_app.py line 424: the guard in front of `render_audio_input_panel`:
`if not is_coding_round and audio_enabled and not current_locked`. -/
def audio_panel_rendered (isCoding audio_enabled current_locked : Bool) : Bool :=
  !isCoding && audio_enabled && !current_locked

/-- A response on which the consolidated accessor raises (no valid part) while
the candidate list carries a candidate with non-empty text content. -/
def c1_failing_response : GeminiResponse :=
  { text := TextAttr.raisesValueError,
    candidates := some [{ content := some { parts := ["Tell me about a project you are proud of."] } }] }

/-- A string that ends with `s` contains `s`. -/
theorem str_contains_here (x s : String) : ∃ a b, x ++ s = a ++ s ++ b :=
  ⟨x, "", by rw [String.append_empty]⟩

/-- Containment is preserved by appending on the right. -/
theorem str_contains_append_left (x y s : String) (h : ∃ a b, x = a ++ s ++ b) :
    ∃ a b, x ++ y = a ++ s ++ b := by
  obtain ⟨a, b, rfl⟩ := h
  exact ⟨a, b ++ y, by rw [String.append_assoc]⟩

/-- Containment is preserved by prepending on the left. -/
theorem str_contains_append_right (x y s : String) (h : ∃ a b, y = a ++ s ++ b) :
    ∃ a b, x ++ y = a ++ s ++ b := by
  obtain ⟨a, b, rfl⟩ := h
  exact ⟨x ++ a, b, by simp [String.append_assoc]⟩

/-- Appending a question mark makes `py_endswith · "?"` true. -/
theorem py_endswith_append_qmark (s : String) : py_endswith (s ++ "?") "?" = true := by
  have hq : ("?" : String).data = ['?'] := rfl
  simp [py_endswith, String.data_append, hq, chars_startwith]

/-- Every value of `per_question_seconds` is positive. -/
theorem per_question_seconds_pos (round_type difficulty : String) :
    0 < per_question_seconds round_type difficulty := by
  unfold per_question_seconds
  split
  · norm_num
  · simp only [List.lookup]
    cases h1 : (py_lower difficulty == "beginner") <;>
      cases h2 : (py_lower difficulty == "professional") <;>
      simp [h1, h2]

/-- Claim C1 (code_bug): the spec says extraction falls back to scanning the
candidates and returns their non-empty text, but `_extract_text_from_candidate`
has a truncated body (it only handles the missing-content case), so the scan
over the candidate list always produces the empty string; in particular a
response whose consolidated accessor raises and whose candidate carries
non-empty text still extracts to `""`. -/
theorem c1_candidate_fallback_never_extracts :
    (∀ candidates : List Candidate, scan_candidates candidates = "") ∧
    extract_text_from_response (some c1_failing_response) = "" ∧
    (c1_failing_response.candidates.getD []).map Candidate.content
      = [some { parts := ["Tell me about a project you are proud of."] }] := by
  refine ⟨?_, by decide, by decide⟩
  intro candidates
  induction candidates with
  | nil => rfl
  | cons c rest ih =>
    cases hc : c.content with
    | none => simp [scan_candidates, extract_text_from_candidate, hc, ih]
    | some ct => simp [scan_candidates, extract_text_from_candidate, hc, ih]

/-- Claim C2 (code_bug): the setup page binds each session to the module-level
`DEFAULT_SAFETY_SETTINGS` dictionary by reference (no copy), so after sessions
0 and 1 both initialize, a threshold edit by session 0 changes both session
1's effective configuration and the module-level default; the practice page's
`.copy()` initialization, by contrast, keeps the same edit session-local. -/
theorem c2_setup_page_aliases_default_settings :
    session_threshold c2_heap_after_init 1 HarmCategory.harassment
      = some HarmBlockThreshold.blockMediumAndAbove ∧
    session_threshold c2_heap_after_edit 1 HarmCategory.harassment
      = some HarmBlockThreshold.blockNone ∧
    c2_heap_after_edit.store c2_heap_after_edit.defaultAddr HarmCategory.harassment
      = HarmBlockThreshold.blockNone ∧
    DEFAULT_SAFETY_SETTINGS HarmCategory.harassment = HarmBlockThreshold.blockMediumAndAbove ∧
    session_threshold
      (setup_set_threshold (practice_init_safety (practice_init_safety initial_safety_heap 0) 1)
        0 HarmCategory.harassment HarmBlockThreshold.blockNone)
      1 HarmCategory.harassment = some HarmBlockThreshold.blockMediumAndAbove := by
  decide

/-- Claim C3 (code_bug): the "Start New Interview" handler pops the keys
`answer_0` .. `answer_9`, but the answer text areas are bound to
`answer_input_{i}` (and answers are also mirrored in the `answers` map), so
after the reset the widget binding and the answers map survive while the
questions, index, timers, locks and audio flags are removed. -/
theorem c3_reset_keeps_widget_answer_state :
    start_new_interview c3_example_store (widget_key 0)
      = some (SessionValue.vStr "my draft answer") ∧
    start_new_interview c3_example_store "answers"
      = some (SessionValue.vAnswers [(0, "my draft answer")]) ∧
    widget_key 0 ∉ start_new_interview_keys ∧
    start_new_interview c3_example_store "questions" = none ∧
    start_new_interview c3_example_store "current_question_index" = none ∧
    start_new_interview c3_example_store "question_timers" = none ∧
    start_new_interview c3_example_store "question_locked" = none ∧
    start_new_interview c3_example_store "audio_mode_enabled" = none ∧
    start_new_interview c3_example_store "audio_checkbox" = none := by
  decide

/-- Claim C10: `generate_question` raises its missing-key error exactly for a
`None` or empty api key; a whitespace-only key passes the guard and proceeds
to the remote call, although `validate_google_api_key` rejects it. -/
theorem c10_api_key_guard (api_key : Option String) :
    (generate_question_key_check api_key = KeyCheckResult.missing_key_error
      ↔ (api_key = none ∨ api_key = some "")) ∧
    generate_question_key_check (some " ") = KeyCheckResult.proceed_to_remote ∧
    validate_rejects_key " " = true := by
  refine ⟨?_, by decide, by decide⟩
  cases api_key with
  | none => simp [generate_question_key_check, py_truthy_opt]
  | some v =>
    by_cases hv : v = ""
    · subst hv
      simp [generate_question_key_check, py_truthy_opt]
    · simp [generate_question_key_check, py_truthy_opt, hv]

/-- Concrete instance of `c10_api_key_guard`: the empty key raises the
missing-key error. -/
theorem c10_api_key_guard_witness :
    generate_question_key_check (some "") = KeyCheckResult.missing_key_error :=
  (c10_api_key_guard (some "")).1.mpr (Or.inr rfl)

/-- Claim C4 counterexample: "Data Engineer" lowercases to a role text that
contains the word "engineer", yet the finished-state feedback appends the
generic tips and none of the three software-engineer tips. -/
theorem c4_contains_engineer_counterexample :
    (∃ a b, py_lower "Data Engineer" = a ++ "engineer" ++ b) ∧
    overall_feedback "Data Engineer" [40, 40, 40, 40, 40]
      = base_feedback [40, 40, 40, 40, 40] ++ generic_tips ∧
    (∀ t ∈ software_engineer_tips, t ∉ overall_feedback "Data Engineer" [40, 40, 40, 40, 40]) := by
  refine ⟨⟨"data ", "", by decide⟩, by decide, by decide⟩

/-- Claim C4 (amended): the role-specific tips are selected by an exact
dictionary lookup on the lowercased role text, not by keyword containment:
exactly "software engineer" gets the three software-engineer tips, exactly
"data scientist" and "product manager" get their tip sets, and every other
role text (even one containing "engineer") gets the generic tips. -/
theorem c4_role_tips_exact_lookup (role_param : String) (response_lengths : List Nat) :
    (py_lower role_param = "software engineer" →
      overall_feedback role_param response_lengths
        = base_feedback response_lengths ++ software_engineer_tips) ∧
    (py_lower role_param = "data scientist" →
      overall_feedback role_param response_lengths
        = base_feedback response_lengths ++ data_scientist_tips) ∧
    (py_lower role_param = "product manager" →
      overall_feedback role_param response_lengths
        = base_feedback response_lengths ++ product_manager_tips) ∧
    (py_lower role_param ≠ "software engineer" → py_lower role_param ≠ "data scientist" →
      py_lower role_param ≠ "product manager" →
      overall_feedback role_param response_lengths
        = base_feedback response_lengths ++ generic_tips) := by
  refine ⟨?_, ?_, ?_, ?_⟩
  · intro h
    simp only [overall_feedback]
    rw [h]
    rfl
  · intro h
    simp only [overall_feedback]
    rw [h]
    rfl
  · intro h
    simp only [overall_feedback]
    rw [h]
    rfl
  · intro h1 h2 h3
    have e1 : (py_lower role_param == "software engineer") = false := by simpa using h1
    have e2 : (py_lower role_param == "data scientist") = false := by simpa using h2
    have e3 : (py_lower role_param == "product manager") = false := by simpa using h3
    simp [overall_feedback, role_specific, List.lookup, e1, e2, e3]

/-- Concrete instances of `c4_role_tips_exact_lookup`: the exact role
"Software Engineer" gets the software-engineer tips and an unrelated role gets
the generic tips. -/
theorem c4_role_tips_exact_lookup_witness :
    overall_feedback "Software Engineer" [40, 40, 40, 40, 40]
      = base_feedback [40, 40, 40, 40, 40] ++ software_engineer_tips ∧
    overall_feedback "Designer" [40]
      = base_feedback [40] ++ generic_tips :=
  ⟨(c4_role_tips_exact_lookup "Software Engineer" [40, 40, 40, 40, 40]).1 (by decide),
   (c4_role_tips_exact_lookup "Designer" [40]).2.2.2 (by decide) (by decide) (by decide)⟩

/-- Claim C5: question post-processing strips at most one leading label prefix
(the first matching entry, applied once) and then appends a trailing "?" if
and only if the cleaned text does not already end with one; in particular
"Question: What is X?" becomes "What is X?" and "Explain Y" becomes
"Explain Y?". -/
theorem c5_question_postprocessing (raw : String) :
    clean_question "Question: What is X?" = "What is X?" ∧
    clean_question "Explain Y" = "Explain Y?" ∧
    clean_question "Question: Question: deeper" = "Question: deeper?" ∧
    py_endswith (clean_question raw) "?" = true ∧
    (py_endswith (strip_leading_label (py_strip raw)) "?" = true →
      clean_question raw = strip_leading_label (py_strip raw)) ∧
    (py_endswith (strip_leading_label (py_strip raw)) "?" = false →
      clean_question raw = strip_leading_label (py_strip raw) ++ "?") := by
  refine ⟨by decide, by decide, by decide, ?_, ?_, ?_⟩
  · cases h : py_endswith (strip_leading_label (py_strip raw)) "?" with
    | false => simp [clean_question, h, py_endswith_append_qmark]
    | true => simp [clean_question, h]
  · intro h
    simp [clean_question, h]
  · intro h
    simp [clean_question, h]

/-- Concrete instance of `c5_question_postprocessing`: "Explain Y" does not
end with a question mark, so one is appended. -/
theorem c5_question_postprocessing_witness :
    clean_question "Explain Y" = strip_leading_label (py_strip "Explain Y") ++ "?" :=
  (c5_question_postprocessing "Explain Y").2.2.2.2.2 (by decide)

/-- Claim C8: the allotted duration is 900 seconds whenever the lowercased
round type is "coding" (for any difficulty), otherwise 180 seconds for
Beginner and 300 seconds for Professional; and the question-locked flag is
set exactly when the elapsed time reaches the allotted duration. -/
theorem c8_timer_durations_and_lock (round_type difficulty : String) (raw : Int) :
    (py_lower round_type = "coding" → per_question_seconds round_type difficulty = 900) ∧
    (py_lower round_type ≠ "coding" → py_lower difficulty = "beginner" →
      per_question_seconds round_type difficulty = 180) ∧
    (py_lower round_type ≠ "coding" → py_lower difficulty = "professional" →
      per_question_seconds round_type difficulty = 300) ∧
    (question_locked_now (per_question_seconds round_type difficulty) raw = true
      ↔ (per_question_seconds round_type difficulty : Int) ≤ raw) := by
  refine ⟨?_, ?_, ?_, ?_⟩
  · intro h
    simp [per_question_seconds, h]
  · intro h hd
    simp [per_question_seconds, h, hd, List.lookup]
  · intro h hd
    simp [per_question_seconds, h, hd, List.lookup]
  · have hp := per_question_seconds_pos round_type difficulty
    simp only [question_locked_now, remaining_seconds, elapsed_clamped, beq_iff_eq]
    omega

/-- Concrete instances of `c8_timer_durations_and_lock`: a Professional coding
round allots 900 seconds for either difficulty, other rounds allot 180 or 300
seconds, and the lock engages at 900 elapsed seconds. -/
theorem c8_timer_durations_and_lock_witness :
    per_question_seconds "Coding" "Beginner" = 900 ∧
    per_question_seconds "Warm Up" "Beginner" = 180 ∧
    per_question_seconds "Behavioral" "Professional" = 300 ∧
    question_locked_now (per_question_seconds "Coding" "Professional") 900 = true :=
  ⟨(c8_timer_durations_and_lock "Coding" "Beginner" 0).1 (by decide),
   (c8_timer_durations_and_lock "Warm Up" "Beginner" 0).2.1 (by decide) (by decide),
   (c8_timer_durations_and_lock "Behavioral" "Professional" 0).2.2.1 (by decide) (by decide),
   (c8_timer_durations_and_lock "Coding" "Professional" 900).2.2.2.mpr (by decide)⟩

/-- Claim C9: for a coding round, the resolved audio flags are all false on
every render of the answering state, whatever audio preference the session
stores, and the audio capture panel is never rendered. -/
theorem c9_coding_round_audio_off (round_type : String)
    (audio_mode_enabled audio_checkbox : Option Bool) (current_locked : Bool)
    (h : py_lower round_type = "coding") :
    resolve_audio_flags (is_coding_round round_type) audio_mode_enabled audio_checkbox
      = { audio_mode := false, audio_enabled := false, audio_only_mode := false } ∧
    (∀ audio_enabled : Bool,
      audio_panel_rendered (is_coding_round round_type) audio_enabled current_locked = false) := by
  have hc : is_coding_round round_type = true := by simp [is_coding_round, h]
  constructor
  · simp [resolve_audio_flags, hc]
  · intro audio_enabled
    simp [audio_panel_rendered, hc]

/-- Concrete instance of `c9_coding_round_audio_off`: a Coding round with a
stored audio preference of true still resolves every audio flag to false. -/
theorem c9_coding_round_audio_off_witness :
    resolve_audio_flags (is_coding_round "Coding") (some true) (some true)
      = { audio_mode := false, audio_enabled := false, audio_only_mode := false } :=
  (c9_coding_round_audio_off "Coding" (some true) (some true) false (by decide)).1

/-- Claim C6: every strategy id outside the six-key registry makes
`get_prompt_by_strategy` fail with the unknown-strategy error whose message
names every registered id, and every registered id succeeds (so it never
fails this way). -/
theorem c6_unknown_strategy_error (strategy role company round_type difficulty : String)
    (previous_questions : Option (List String)) :
    (strategy ∉ strategyKeys →
      get_prompt_by_strategy strategy role company round_type difficulty previous_questions
        = Except.error (unknown_strategy_message strategy) ∧
      ∀ k ∈ strategyKeys, ∃ a b, unknown_strategy_message strategy = a ++ k ++ b) ∧
    (strategy ∈ strategyKeys →
      ∃ out, get_prompt_by_strategy strategy role company round_type difficulty previous_questions
        = Except.ok out) := by
  have hkeys : strategyKeys
      = ["zero_shot", "few_shot", "chain_of_thought", "role_based",
         "structured_output", "socratic"] := rfl
  constructor
  · intro h
    rw [hkeys] at h
    simp only [List.mem_cons, List.mem_nil_iff, or_false, not_or] at h
    obtain ⟨h1, h2, h3, h4, h5, h6⟩ := h
    have e1 : (strategy == "zero_shot") = false := by simpa using h1
    have e2 : (strategy == "few_shot") = false := by simpa using h2
    have e3 : (strategy == "chain_of_thought") = false := by simpa using h3
    have e4 : (strategy == "role_based") = false := by simpa using h4
    have e5 : (strategy == "structured_output") = false := by simpa using h5
    have e6 : (strategy == "socratic") = false := by simpa using h6
    constructor
    · simp [get_prompt_by_strategy, PROMPT_STRATEGIES, List.lookup, e1, e2, e3, e4, e5, e6]
    · intro k hk
      rw [hkeys] at hk
      simp only [List.mem_cons, List.mem_nil_iff, or_false] at hk
      have hmsg : unknown_strategy_message strategy
          = ("Unknown strategy \x27" ++ strategy ++ "\x27. Available strategies: ")
            ++ ", ".intercalate strategyKeys := rfl
      rw [hmsg]
      rcases hk with rfl | rfl | rfl | rfl | rfl | rfl
      · exact str_contains_append_right _ _ _
          ⟨"", ", few_shot, chain_of_thought, role_based, structured_output, socratic", by decide⟩
      · exact str_contains_append_right _ _ _
          ⟨"zero_shot, ", ", chain_of_thought, role_based, structured_output, socratic", by decide⟩
      · exact str_contains_append_right _ _ _
          ⟨"zero_shot, few_shot, ", ", role_based, structured_output, socratic", by decide⟩
      · exact str_contains_append_right _ _ _
          ⟨"zero_shot, few_shot, chain_of_thought, ", ", structured_output, socratic", by decide⟩
      · exact str_contains_append_right _ _ _
          ⟨"zero_shot, few_shot, chain_of_thought, role_based, ", ", socratic", by decide⟩
      · exact str_contains_append_right _ _ _
          ⟨"zero_shot, few_shot, chain_of_thought, role_based, structured_output, ", "", by decide⟩
  · intro h
    rw [hkeys] at h
    simp only [List.mem_cons, List.mem_nil_iff, or_false] at h
    rcases h with rfl | rfl | rfl | rfl | rfl | rfl
    all_goals exact ⟨_, rfl⟩

/-- Concrete instances of `c6_unknown_strategy_error`: an unregistered id
fails with the enumerating error and a registered one succeeds. -/
theorem c6_unknown_strategy_error_witness :
    get_prompt_by_strategy "bogus" "Role" "Co" "Coding" "Professional" none
      = Except.error (unknown_strategy_message "bogus") ∧
    (∃ out, get_prompt_by_strategy "socratic" "Role" "Co" "Coding" "Professional" none
      = Except.ok out) :=
  ⟨((c6_unknown_strategy_error "bogus" "Role" "Co" "Coding" "Professional" none).1
      (by decide)).1,
   (c6_unknown_strategy_error "socratic" "Role" "Co" "Coding" "Professional" none).2
      (by decide)⟩

/-- Claim C7: for each registered strategy id and arbitrary inputs, rendering
succeeds with a prompt that contains the role, the round type and the
difficulty verbatim, and rendering is deterministic (equal inputs give the
identical prompt). -/
theorem c7_prompt_contains_fields (strategy role company round_type difficulty : String)
    (previous_questions : Option (List String)) (h : strategy ∈ strategyKeys) :
    (∃ out, get_prompt_by_strategy strategy role company round_type difficulty previous_questions
        = Except.ok out ∧
      (∃ a b, out = a ++ role ++ b) ∧
      (∃ a b, out = a ++ round_type ++ b) ∧
      (∃ a b, out = a ++ difficulty ++ b)) ∧
    (∀ s2 r2 c2 t2 d2 p2, s2 = strategy → r2 = role → c2 = company → t2 = round_type →
      d2 = difficulty → p2 = previous_questions →
      get_prompt_by_strategy s2 r2 c2 t2 d2 p2
        = get_prompt_by_strategy strategy role company round_type difficulty previous_questions) := by
  constructor
  · have hkeys : strategyKeys
        = ["zero_shot", "few_shot", "chain_of_thought", "role_based",
           "structured_output", "socratic"] := rfl
    rw [hkeys] at h
    simp only [List.mem_cons, List.mem_nil_iff, or_false] at h
    rcases h with rfl | rfl | rfl | rfl | rfl | rfl
    · refine ⟨zero_shot_prompt role company round_type difficulty previous_questions,
        rfl, ?_, ?_, ?_⟩ <;>
        simp only [zero_shot_prompt] <;>
        repeat (first | exact str_contains_here _ _ | apply str_contains_append_left)
    · refine ⟨few_shot_prompt role company round_type difficulty previous_questions,
        rfl, ?_, ?_, ?_⟩ <;>
        simp only [few_shot_prompt] <;>
        repeat (first | exact str_contains_here _ _ | apply str_contains_append_left)
    · refine ⟨chain_of_thought_prompt role company round_type difficulty previous_questions,
        rfl, ?_, ?_, ?_⟩ <;>
        simp only [chain_of_thought_prompt] <;>
        repeat (first | exact str_contains_here _ _ | apply str_contains_append_left)
    · refine ⟨role_based_prompt role company round_type difficulty previous_questions,
        rfl, ?_, ?_, ?_⟩ <;>
        simp only [role_based_prompt] <;>
        repeat (first | exact str_contains_here _ _ | apply str_contains_append_left)
    · refine ⟨structured_output_prompt role company round_type difficulty previous_questions,
        rfl, ?_, ?_, ?_⟩ <;>
        simp only [structured_output_prompt] <;>
        repeat (first | exact str_contains_here _ _ | apply str_contains_append_left)
    · refine ⟨socratic_prompt role company round_type difficulty previous_questions,
        rfl, ?_, ?_, ?_⟩ <;>
        simp only [socratic_prompt] <;>
        repeat (first | exact str_contains_here _ _ | apply str_contains_append_left)
  · intro s2 r2 c2 t2 d2 p2 hs hr hc ht hd hp
    rw [hs, hr, hc, ht, hd, hp]

/-- Concrete instance of `c7_prompt_contains_fields`: the few-shot prompt for
a Professional coding round contains the role, round and difficulty. -/
theorem c7_prompt_contains_fields_witness :
    ∃ out, get_prompt_by_strategy "few_shot" "Software Engineer" "" "Coding" "Professional"
        (some ["Q1?"]) = Except.ok out ∧
      (∃ a b, out = a ++ "Software Engineer" ++ b) ∧
      (∃ a b, out = a ++ "Coding" ++ b) ∧
      (∃ a b, out = a ++ "Professional" ++ b) :=
  (c7_prompt_contains_fields "few_shot" "Software Engineer" "" "Coding" "Professional"
    (some ["Q1?"]) (by decide)).1
